import Mathlib

/-!
Shallow embedding of `xlml/apis/task.py`: the task-pipeline composition layer
for accelerator benchmark tests.  Each pipeline-composition function of the
source is translated into a Lean function that returns the composed pipeline
as explicit data: a top-level chain of stages (mirroring the `>>` wiring of
the source), where every stage carries the operator calls made inside its
task group together with the override attributes (`retries`, timeouts,
`owner`, task ids) that the source sets on them.

Runtime-resolved values (XCom arguments in the source) are represented
symbolically by the inductive `XVal`: each generator task produces a distinct
symbolic value, so "the same artifact location" is literal equality of
symbolic values.
-/

/-- Symbolic runtime values: one constructor per generator operator of the
source (`tpu.generate_tpu_name`, `ssh.generate_ssh_keys`,
`name_format.generate_gcs_folder_location`, ...).  `lit` stands for a
configured literal location. -/
inductive XVal where
  | lit (s : String)
  | tpuName (benchmark_id : String) (tpu_name_env_var : Bool)
  | sshKeys
  | gcsFolderLocation (gcs_subfolder : String) (benchmark_id : String)
  | queuedResourceName (tpu_name : XVal)
  | workloadId (benchmark_id : String)
  | runName (benchmark_id : String)
  | tbFileLocation (run_name : XVal) (base : XVal) (nested : Bool)
  | profileFileLocation (run_name : XVal) (base : XVal)
  | processId
  | xplaneMetrics (file_location : XVal)
  | gpuName
  | createdIp (gpu_name : XVal)
  | existingIp (instance_name : Option String)
deriving DecidableEq, Repr

/-- A command of `run_model_cmds`.  `exportRunName` is the command the source
prepends in `XpkTask.run_with_run_name_generation`
(`f"export {run_name_env}={run_name}"`), which interpolates the run-name
XCom value. -/
inductive Cmd where
  | lit (s : String)
  | exportRunName (run_name_env : String) (run_name : XVal)
deriving DecidableEq, Repr

/-- Modelled from the spec: accelerator shape of a TestDescriptor (the
`accelerator` attribute of the test config, with the `name`,
`accelerator_type` and `count` fields read by `task.py`). -/
structure Accelerator where
  name : String
  accelerator_type : String
  count : Nat
deriving DecidableEq, Repr

/-- Modelled from the spec: the TestDescriptor (class `test_config.TestConfig`
and its subclasses, which are not part of this tree).  It carries exactly the
attributes `task.py` reads: benchmark id, test name, gcs subfolder, setup and
run scripts, run_model_cmds, timeout (in whole seconds, the source stores a
`datetime.timedelta`), owner, cluster name, docker image, accelerator shape,
slice count and host count. -/
structure TestConfig where
  benchmark_id : String
  test_name : String
  gcs_subfolder : String
  setup_script : String
  test_script : String
  run_model_cmds : List Cmd
  timeout : Nat
  task_owner : String
  cluster_name : String
  docker_image : String
  accelerator : Accelerator
  num_slices : Nat
  num_hosts : Nat
deriving DecidableEq, Repr

/-- Modelled from the spec: GcpConfig (`gcp_config.GCPConfig`, not part of
this tree): project and zone. -/
structure GCPConfig where
  project_name : String
  zone : String
deriving DecidableEq, Repr

/-- Modelled from the spec: the tensorboard-summary part of a MetricConfig
(`metric_config.SummaryConfig`, not part of this tree); `task.py` reads and
rewrites its `file_location`. -/
structure SummaryConfig where
  file_location : XVal
deriving DecidableEq, Repr

/-- Modelled from the spec: the optional profile part of a MetricConfig;
`task.py` reads and rewrites `file_location` and assigns `metrics`. -/
structure ProfileConfig where
  file_location : XVal
  metrics : Option XVal
deriving DecidableEq, Repr

/-- Modelled from the spec: MetricConfig (`metric_config.MetricConfig`, not
part of this tree): optional tensorboard summary, optional profile, and the
`use_runtime_generated_gcs_folder` flag read by `GpuCreateResourceTask`. -/
structure MetricConfig where
  tensorboard_summary : Option SummaryConfig
  profile : Option ProfileConfig
  use_runtime_generated_gcs_folder : Bool
deriving DecidableEq, Repr

/-- Modelled from the spec: name of the single well-known environment
variable for the artifact output location
(`metric_config.SshEnvVars.GCS_OUTPUT.name`). -/
def SshEnvVars_GCS_OUTPUT_name : String := "GCS_OUTPUT"

/-- Python `zone[:-2]`: the region is the zone with its last two characters
removed. -/
def regionOf (zone : String) : String := zone.dropRight 2

/-- Character-list version of string startswith. -/
def charsStartWith : List Char → List Char → Bool
  | _, [] => true
  | [], _ :: _ => false
  | c :: cs, p :: ps => decide (c = p) && charsStartWith cs ps

/-- Python `s.startswith(p)`. -/
def pyStartswith (s : String) (p : String) : Bool :=
  charsStartWith s.data p.data

/-- Python `x or d` on a non-negative integer: `d` when `x` is zero. -/
def pyIntOr (x d : Nat) : Nat := if x = 0 then d else x

/-- Modelled from the spec: shell tokenization of a script string
(Python `shlex.split`), abstracted as whitespace splitting. -/
def shlexSplit (s : String) : List String :=
  (s.splitOn " ").filter (fun t => t ≠ "")

/-- Environment entry of the emitted job manifest: a variable sourced from a
pod-metadata field reference. -/
structure EnvFieldRef where
  name : String
  fieldPath : String
deriving DecidableEq, Repr

/-- Volume mount of the emitted job manifest. -/
structure VolumeMount where
  mountPath : String
  name : String
  readOnly : Bool
deriving DecidableEq, Repr

/-- Volume of the emitted job manifest (`emptyDir` with a medium). -/
structure JobVolume where
  emptyDir_medium : String
  name : String
deriving DecidableEq, Repr

/-- Container of the emitted job manifest.  `resources_limits_nvidia_gpu`
is the value of `resources.limits` at key `nvidia.com/gpu`. -/
structure JobContainer where
  name : String
  image : String
  imagePullPolicy : String
  command : List String
  args : List String
  resources_limits_nvidia_gpu : Nat
  env : List EnvFieldRef
  volumeMounts : List VolumeMount
deriving DecidableEq, Repr

/-- Pod spec of the emitted job manifest.  `nodeSelector_gke_accelerator` is
the value of `nodeSelector` at key `cloud.google.com/gke-accelerator`. -/
structure JobPodSpec where
  subdomain : String
  nodeSelector_gke_accelerator : String
  restartPolicy : String
  containers : List JobContainer
  volumes : List JobVolume
deriving DecidableEq, Repr

/-- Pod template of the emitted job manifest.  `metadata_labels_headless_svc`
is the value of `template.metadata.labels` at key `headless-svc`. -/
structure JobPodTemplate where
  metadata_labels_headless_svc : String
  spec : JobPodSpec
deriving DecidableEq, Repr

/-- The `spec` object of the emitted job manifest. -/
structure JobSpec where
  activeDeadlineSeconds : Nat
  backoffLimit : Nat
  completionMode : String
  completions : Nat
  parallelism : Nat
  template : JobPodTemplate
deriving DecidableEq, Repr

/-- The `metadata` object of the emitted job manifest; `labels_accelerator`
and `labels_benchmarkId` are the two label entries. -/
structure JobMetadata where
  generateName : String
  labels_accelerator : String
  labels_benchmarkId : String
deriving DecidableEq, Repr

/-- The batch-job manifest emitted by `GpuGkeTask._get_job_manifest`. -/
structure JobManifest where
  apiVersion : String
  kind : String
  metadata : JobMetadata
  spec : JobSpec
deriving DecidableEq, Repr

/-- One operator call of the source, with the arguments passed at the call
site.  XCom-valued arguments are `XVal`s. -/
inductive Op where
  | generateTpuName (benchmark_id : String) (tpu_name_env_var : Bool)
  | generateSshKeys
  | generateGcsFolderLocation (gcs_subfolder : String) (benchmark_id : String)
  | createQueuedResource (tpu_name : XVal) (gcp : GCPConfig) (ssh_keys : XVal)
      (tpu_create_timeout : Nat)
  | sshTpu (qualified_name : XVal) (script : String) (ssh_keys : XVal)
      (all_workers : Bool) (env : Option (List (String × XVal)))
  | generateProcessId
  | processMetrics (process_id : XVal) (test_cfg : TestConfig)
      (metric_cfg : Option MetricConfig) (gcp : GCPConfig)
      (folder_location : Option XVal)
  | deleteQueuedResource (qualified_name : XVal)
  | generateWorkloadId (benchmark_id : String)
  | runWorkload (cluster_project : String) (zone : String)
      (cluster_name : String) (benchmark_id : String) (workload_id : XVal)
      (gcs_path : XVal) (docker_image : String) (accelerator_type : String)
      (run_cmds : String) (num_slices : Nat) (use_vertex_tensorboard : Bool)
      (use_pathways : Bool) (ramdisk_directory : String) (mtc_enabled : Bool)
      (xpk_branch : String)
  | waitForWorkloadStart (workload_id : XVal) (project_id : String)
      (region : String) (cluster_name : String)
  | waitForWorkloadCompletion (workload_id : XVal) (project_id : String)
      (region : String) (cluster_name : String)
  | cleanUpWorkload (workload_id : XVal) (project_id : String) (zone : String)
      (cluster_name : String)
  | generateRunName (benchmark_id : String)
  | generateTbFileLocation (run_name : XVal) (base : XVal) (nested : Bool)
  | generateProfileFileLocation (run_name : XVal) (base : XVal)
  | xplaneToMetrics (file_location : XVal)
  | generateGpuName
  | createResource (gpu_name : XVal) (image_project : String)
      (image_family : String) (accelerator : Accelerator) (gcp : GCPConfig)
      (ssh_keys : XVal) (timeout : Nat) (install_nvidia_drivers : Bool)
      (reservation : Bool)
  | sshHost (resource : XVal) (script : String) (ssh_keys : XVal)
      (env : Option (List (String × XVal)))
  | deleteResource (resource : XVal) (project_id : String) (zone : String)
  | getExistingResource (instance_name : Option String) (ssh_keys : XVal)
      (gcp : GCPConfig)
  | cleanUpSshKeys (instance_name : Option String) (ssh_keys : XVal)
      (gcp : GCPConfig)
  | runJob (job_body : JobManifest) (gcp : GCPConfig) (cluster_name : String)
      (job_create_timeout : Nat) (gcs_location : XVal)
deriving DecidableEq, Repr

/-- Airflow trigger rules.  The source never overrides `trigger_rule`, so
every task it creates keeps the scheduler default `allSuccess`; the other
constructors exist only so that carrying the default is an observable fact
about the source. -/
inductive TriggerRule where
  | allSuccess
  | allDone
  | oneFailed
deriving DecidableEq, Repr

/-- One task node of the composed pipeline: the operator call plus the
`.override(...)` attributes set at the call site (absent overrides are
`none`, and the trigger rule is the Airflow default). -/
structure TaskNode where
  op : Op
  task_id : Option String := none
  retries : Option Nat := none
  execution_timeout : Option Nat := none
  timeout : Option Nat := none
  owner : Option String := none
  trigger_rule : TriggerRule := TriggerRule.allSuccess
deriving DecidableEq, Repr

/-- One element of a top-level `>>` chain: a task group (or a bare task,
wrapped as a singleton group named after the task) with the tasks created
inside it, listed in the order the source creates and chains them. -/
structure Stage where
  group_id : String
  tasks : List TaskNode
deriving DecidableEq, Repr

/-- A composed pipeline: the enclosing benchmark task group and its top-level
chain of stages.  `chain` lists the stages in dependency order: in Airflow,
chaining group `A >> B` puts every task of `A` strictly before every task of
`B`. -/
structure Pipeline where
  group_id : String
  chain : List Stage
deriving DecidableEq, Repr

/-- Abstract stage classification used by the stage-order statements. -/
inductive StageLabel where
  | provision
  | run
  | postProcess
  | cleanup
deriving DecidableEq, Repr

/-- Classification of the source's group/task ids into abstract stages.
`clean_up_ssh_keys` is the cleanup task of the existing-instance pipeline
(created without a `group_id` override, hence under its own task name). -/
def stageLabel : String → Option StageLabel
  | "provision" => some StageLabel.provision
  | "run_model" => some StageLabel.run
  | "post_process" => some StageLabel.postProcess
  | "clean_up" => some StageLabel.cleanup
  | "clean_up_ssh_keys" => some StageLabel.cleanup
  | _ => none

/-- The ordered abstract stage labels of a pipeline's top-level chain
(name-generation helper steps classify to nothing and are dropped). -/
def pipelineStageLabels (p : Pipeline) : List StageLabel :=
  p.chain.filterMap (fun s => stageLabel s.group_id)

/-- `run_queued_resource_test` of `task.py`: the QueuedResource (TPU)
pipeline, chained `provision >> run_model >> post_process >> clean_up`. -/
def run_queued_resource_test (task_test_config : TestConfig)
    (task_gcp_config : GCPConfig) (task_metric_config : Option MetricConfig)
    (tpu_create_timeout : Nat) (tpu_name_env_var : Bool)
    (all_workers : Bool) : Pipeline :=
  let tpu_name := XVal.tpuName task_test_config.benchmark_id tpu_name_env_var
  let ssh_keys := XVal.sshKeys
  let output_location := XVal.gcsFolderLocation task_test_config.gcs_subfolder
    task_test_config.benchmark_id
  let queued_resource_name := XVal.queuedResourceName tpu_name
  { group_id := task_test_config.benchmark_id
    chain := [
      { group_id := "provision"
        tasks := [
          { op := Op.generateTpuName task_test_config.benchmark_id
              tpu_name_env_var },
          { op := Op.generateSshKeys },
          { op := Op.generateGcsFolderLocation task_test_config.gcs_subfolder
              task_test_config.benchmark_id },
          { op := Op.createQueuedResource tpu_name task_gcp_config ssh_keys
              tpu_create_timeout },
          { op := Op.sshTpu queued_resource_name
              task_test_config.setup_script ssh_keys
              (if pyStartswith task_test_config.test_name "tf_" then true
               else all_workers)
              none
            task_id := some "setup" } ] },
      { group_id := "run_model"
        tasks := [
          { op := Op.sshTpu queued_resource_name task_test_config.test_script
              ssh_keys all_workers
              (some [(SshEnvVars_GCS_OUTPUT_name, output_location)])
            task_id := some "run_model"
            execution_timeout := some task_test_config.timeout
            owner := some task_test_config.task_owner } ] },
      { group_id := "post_process"
        tasks := [
          { op := Op.generateProcessId
            retries := some 0 },
          { op := Op.processMetrics XVal.processId task_test_config
              task_metric_config task_gcp_config (some output_location)
            retries := some 0 } ] },
      { group_id := "clean_up"
        tasks := [ { op := Op.deleteQueuedResource queued_resource_name } ] }
    ] }

/-- Quarantine routing result: the composed node plus whether it was placed
in the quarantine task group ("grouping" is the only difference between the
two branches of the source). -/
structure QuarantineRouted (α : Type) where
  quarantined : Bool
  node : α
deriving Repr

/-- `BaseTask.run_with_quarantine` of `task.py`: check quarantine membership
of the benchmark id; if quarantined, build the pipeline (`self.run()`) inside
the quarantine task group, otherwise build the same pipeline outside it.
The quarantine lookup (`QuarantineTests.is_quarantined`, not part of this
tree) is modelled from the spec as an injected predicate, and the build of
`self.run()` as a thunk evaluated in the taken branch. -/
def BaseTask.run_with_quarantine {α : Type} (is_quarantined : String → Bool)
    (benchmark_id : String) (run : Unit → α) : QuarantineRouted α :=
  if is_quarantined benchmark_id then
    { quarantined := true, node := run () }
  else
    { quarantined := false, node := run () }

/-- `XpkTask` of `task.py`: the ClusterWorkload backend (TPU/GPU provisioned
by the XPK tool).  `workload_provision_timeout` in whole seconds. -/
structure XpkTask where
  task_test_config : TestConfig
  task_gcp_config : GCPConfig
  task_metric_config : Option MetricConfig
  workload_provision_timeout : Nat
deriving DecidableEq, Repr

/-- `XpkTask.launch_workload`: the `launch_workload` sub-group, chained
`run_workload >> wait_for_workload_start` (returned flattened; its tasks sit
inside the enclosing `run_model` group chain). -/
def XpkTask.launch_workload (t : XpkTask) (workload_id : XVal)
    (gcs_path : XVal) (use_vertex_tensorboard : Bool) (use_pathways : Bool)
    (ramdisk_directory : String) (mtc_enabled : Bool) (xpk_branch : String) :
    List TaskNode :=
  [ { op := Op.runWorkload t.task_gcp_config.project_name
        t.task_gcp_config.zone t.task_test_config.cluster_name
        t.task_test_config.benchmark_id workload_id gcs_path
        t.task_test_config.docker_image t.task_test_config.accelerator.name
        t.task_test_config.test_script t.task_test_config.num_slices
        use_vertex_tensorboard use_pathways ramdisk_directory mtc_enabled
        xpk_branch
      task_id := some "run_workload"
      owner := some t.task_test_config.task_owner },
    { op := Op.waitForWorkloadStart workload_id
        t.task_gcp_config.project_name (regionOf t.task_gcp_config.zone)
        t.task_test_config.cluster_name
      timeout := some t.workload_provision_timeout } ]

/-- `XpkTask.run_model`: the `run_model` group, chained
`(workload_id, gcs_path) >> launch_workload >> wait_for_workload_completion
>> clean_up_workload`; returns the group and the `gcs_path` value.  When the
caller supplies `gcs_location` no folder-generation task is created. -/
def XpkTask.run_model (t : XpkTask) (gcs_location : Option XVal)
    (use_vertex_tensorboard : Bool) (use_pathways : Bool)
    (ramdisk_directory : String) (mtc_enabled : Bool) (xpk_branch : String) :
    Stage × XVal :=
  let workload_id := XVal.workloadId t.task_test_config.benchmark_id
  let gcs_path := match gcs_location with
    | some l => l
    | none => XVal.gcsFolderLocation t.task_test_config.gcs_subfolder
        t.task_test_config.benchmark_id
  ({ group_id := "run_model"
     tasks :=
       [ { op := Op.generateWorkloadId t.task_test_config.benchmark_id } ]
       ++ (match gcs_location with
           | some _ => []
           | none =>
             [ { op := Op.generateGcsFolderLocation
                   t.task_test_config.gcs_subfolder
                   t.task_test_config.benchmark_id } ])
       ++ t.launch_workload workload_id gcs_path use_vertex_tensorboard
            use_pathways ramdisk_directory mtc_enabled xpk_branch
       ++ [ { op := Op.waitForWorkloadCompletion workload_id
                t.task_gcp_config.project_name
                (regionOf t.task_gcp_config.zone)
                t.task_test_config.cluster_name
              timeout := some t.task_test_config.timeout },
            { op := Op.cleanUpWorkload workload_id
                t.task_gcp_config.project_name t.task_gcp_config.zone
                t.task_test_config.cluster_name } ] },
   gcs_path)

/-- `XpkTask.post_process`: the `post_process` group.  When a profile is
configured the source assigns `profile.metrics` in place and chains
`process_id >> profile.metrics >> post_process_metrics`; otherwise
`process_id >> post_process_metrics`.  The in-place assignment is modelled
by returning the updated task; `process_metrics` receives the config object
the method mutates, hence the updated value. -/
def XpkTask.post_process (t : XpkTask) (result_location : Option XVal) :
    XpkTask × Stage :=
  match t.task_metric_config with
  | some mc =>
    match mc.profile with
    | some p =>
      let p2 : ProfileConfig :=
        { p with metrics := some (XVal.xplaneMetrics p.file_location) }
      let mc2 : MetricConfig := { mc with profile := some p2 }
      let t2 : XpkTask := { t with task_metric_config := some mc2 }
      (t2,
       { group_id := "post_process"
         tasks := [
           { op := Op.generateProcessId, retries := some 0 },
           { op := Op.xplaneToMetrics p.file_location, retries := some 0 },
           { op := Op.processMetrics XVal.processId t.task_test_config
               (some mc2) t.task_gcp_config result_location
             retries := some 0 } ] })
    | none =>
      (t,
       { group_id := "post_process"
         tasks := [
           { op := Op.generateProcessId, retries := some 0 },
           { op := Op.processMetrics XVal.processId t.task_test_config
               t.task_metric_config t.task_gcp_config result_location
             retries := some 0 } ] })
  | none =>
    (t,
     { group_id := "post_process"
       tasks := [
         { op := Op.generateProcessId, retries := some 0 },
         { op := Op.processMetrics XVal.processId t.task_test_config
             t.task_metric_config t.task_gcp_config result_location
           retries := some 0 } ] })

/-- `XpkTask.run`: `run_model` then, unless `skip_post_process`,
`run_model >> post_process`. -/
def XpkTask.run (t : XpkTask) (gcs_location : Option XVal)
    (use_vertex_tensorboard : Bool) (use_pathways : Bool)
    (skip_post_process : Bool) (ramdisk_directory : String)
    (mtc_enabled : Bool) (xpk_branch : String) : XpkTask × Pipeline :=
  let rm := t.run_model gcs_location use_vertex_tensorboard use_pathways
    ramdisk_directory mtc_enabled xpk_branch
  if skip_post_process then
    (t, { group_id := t.task_test_config.benchmark_id, chain := [rm.1] })
  else
    let pp := t.post_process (some rm.2)
    (pp.1,
     { group_id := t.task_test_config.benchmark_id
       chain := [rm.1, pp.2] })

/-- `XpkTask.run_with_run_name_generation`: generate a run name and file
locations, mutate `run_model_cmds` and the metric-config file locations in
place, then chain
`run_name >> file locations >> run_model >> post_process`.  The source
dereferences `self.task_metric_config.tensorboard_summary.file_location`
without a guard: when the metric config (or its tensorboard summary) is
absent the call raises, modelled as `none`. -/
def XpkTask.run_with_run_name_generation (t : XpkTask) (use_pathways : Bool)
    (xpk_branch : String) (run_name_env : String)
    (nested_run_name_in_tb_file_location : Bool) :
    Option (XpkTask × Pipeline) :=
  match t.task_metric_config with
  | none => none
  | some mc =>
    match mc.tensorboard_summary with
    | none => none
    | some tb =>
      let bid := t.task_test_config.benchmark_id
      let run_name := XVal.runName bid
      let tb_file_location := XVal.tbFileLocation run_name tb.file_location
        nested_run_name_in_tb_file_location
      let new_run_model_cmds :=
        Cmd.exportRunName run_name_env run_name
          :: t.task_test_config.run_model_cmds
      let tb1 : SummaryConfig := { tb with file_location := tb_file_location }
      let mc1 : MetricConfig := { mc with tensorboard_summary := some tb1 }
      let ttc1 : TestConfig :=
        { t.task_test_config with run_model_cmds := new_run_model_cmds }
      let t1 : XpkTask :=
        { t with task_test_config := ttc1, task_metric_config := some mc1 }
      match mc1.profile with
      | some p =>
        let profile_file_location :=
          XVal.profileFileLocation run_name p.file_location
        let p1 : ProfileConfig :=
          { p with file_location := profile_file_location }
        let mc2 : MetricConfig := { mc1 with profile := some p1 }
        let t2 : XpkTask := { t1 with task_metric_config := some mc2 }
        let rm := t2.run_model none false use_pathways "" false xpk_branch
        let pp := t2.post_process (some rm.2)
        some (pp.1,
          { group_id := bid
            chain := [
              { group_id := "generate_run_name"
                tasks := [ { op := Op.generateRunName bid } ] },
              { group_id := "generate_file_locations"
                tasks := [
                  { op := Op.generateTbFileLocation run_name tb.file_location
                      nested_run_name_in_tb_file_location },
                  { op := Op.generateProfileFileLocation run_name
                      p.file_location } ] },
              rm.1, pp.2 ] })
      | none =>
        let rm := t1.run_model none false use_pathways "" false xpk_branch
        let pp := t1.post_process (some rm.2)
        some (pp.1,
          { group_id := bid
            chain := [
              { group_id := "generate_run_name"
                tasks := [ { op := Op.generateRunName bid } ] },
              { group_id := "generate_tb_file_location"
                tasks := [
                  { op := Op.generateTbFileLocation run_name tb.file_location
                      nested_run_name_in_tb_file_location } ] },
              rm.1, pp.2 ] })

/-- `XpkTask.run_with_name_gen_and_quarantine`: both branches call
`run_with_run_name_generation` with the same arguments; only the enclosing
grouping differs. -/
def XpkTask.run_with_name_gen_and_quarantine
    (is_quarantined : String → Bool) (t : XpkTask) (use_pathways : Bool)
    (xpk_branch : String) (run_name_env : String)
    (nested_run_name_in_tb_file_location : Bool) :
    QuarantineRouted (Option (XpkTask × Pipeline)) :=
  let test_name := t.task_test_config.benchmark_id
  if is_quarantined test_name then
    { quarantined := true
      node := t.run_with_run_name_generation use_pathways xpk_branch
        run_name_env nested_run_name_in_tb_file_location }
  else
    { quarantined := false
      node := t.run_with_run_name_generation use_pathways xpk_branch
        run_name_env nested_run_name_in_tb_file_location }

/-- Python truthiness of
`self.task_metric_config and self.task_metric_config.use_runtime_generated_gcs_folder`. -/
def metricUsesRuntimeGcs : Option MetricConfig → Bool
  | some m => m.use_runtime_generated_gcs_folder
  | none => false

/-- `GpuCreateResourceTask` of `task.py`: the VmSsh (GPU VM) backend.
`gpu_create_timeout` in whole seconds. -/
structure GpuCreateResourceTask where
  image_project : String
  image_family : String
  task_test_config : TestConfig
  task_gcp_config : GCPConfig
  task_metric_config : Option MetricConfig
  gpu_create_timeout : Nat
  install_nvidia_drivers : Bool
  existing_instance_name : Option String
  reservation : Bool
deriving DecidableEq, Repr

/-- `GpuCreateResourceTask.provision`: the `provision` group (initialize
sub-group generating name, SSH keys and the artifact location, then
`create_resource`, then the setup `ssh_host` task); returns the group and
the XCom values for ip address, instance name, SSH keys and the artifact
location. -/
def GpuCreateResourceTask.provision (g : GpuCreateResourceTask) :
    Stage × XVal × XVal × XVal × XVal :=
  let gpu_name := XVal.gpuName
  let ssh_keys := XVal.sshKeys
  let gcs_location := XVal.gcsFolderLocation g.task_test_config.gcs_subfolder
    g.task_test_config.benchmark_id
  let ip_address := XVal.createdIp gpu_name
  ({ group_id := "provision"
     tasks := [
       { op := Op.generateGpuName },
       { op := Op.generateSshKeys },
       { op := Op.generateGcsFolderLocation g.task_test_config.gcs_subfolder
           g.task_test_config.benchmark_id },
       { op := Op.createResource gpu_name g.image_project g.image_family
           g.task_test_config.accelerator g.task_gcp_config ssh_keys
           g.gpu_create_timeout g.install_nvidia_drivers g.reservation },
       { op := Op.sshHost ip_address g.task_test_config.setup_script ssh_keys
           none
         task_id := some "setup" } ] },
   ip_address, gpu_name, ssh_keys, gcs_location)

/-- `GpuCreateResourceTask.provision_via_existing_instance`: the `provision`
group for a pre-existing instance — fresh SSH keys, `get_existing_resource`
(no VM creation), and the artifact location; returns the group and the XCom
values for ip address, SSH keys and the artifact location. -/
def GpuCreateResourceTask.provision_via_existing_instance
    (g : GpuCreateResourceTask) : Stage × XVal × XVal × XVal :=
  let ssh_keys := XVal.sshKeys
  let ip_address := XVal.existingIp g.existing_instance_name
  let gcs_location := XVal.gcsFolderLocation g.task_test_config.gcs_subfolder
    g.task_test_config.benchmark_id
  ({ group_id := "provision"
     tasks := [
       { op := Op.generateSshKeys },
       { op := Op.getExistingResource g.existing_instance_name ssh_keys
           g.task_gcp_config },
       { op := Op.generateGcsFolderLocation g.task_test_config.gcs_subfolder
           g.task_test_config.benchmark_id } ] },
   ip_address, ssh_keys, gcs_location)

/-- `GpuCreateResourceTask.run_model`: the `run_model` `ssh_host` task with
execution timeout and owner overrides. -/
def GpuCreateResourceTask.run_model (g : GpuCreateResourceTask)
    (resource : XVal) (ssh_keys : XVal)
    (env : Option (List (String × XVal))) : TaskNode :=
  { op := Op.sshHost resource g.task_test_config.test_script ssh_keys env
    task_id := some "run_model"
    execution_timeout := some g.task_test_config.timeout
    owner := some g.task_test_config.task_owner }

/-- `GpuCreateResourceTask.post_process`: the `post_process` group
(`generate_process_id` then `process_metrics`, both with retries 0). -/
def GpuCreateResourceTask.post_process (g : GpuCreateResourceTask)
    (result_location : Option XVal) : Stage :=
  { group_id := "post_process"
    tasks := [
      { op := Op.generateProcessId, retries := some 0 },
      { op := Op.processMetrics XVal.processId g.task_test_config
          g.task_metric_config g.task_gcp_config result_location
        retries := some 0 } ] }

/-- `GpuCreateResourceTask.clean_up`: `delete_resource` under group id
`clean_up`. -/
def GpuCreateResourceTask.clean_up (resource : XVal) (project_id : String)
    (zone : String) : Stage :=
  { group_id := "clean_up"
    tasks := [ { op := Op.deleteResource resource project_id zone } ] }

/-- `GpuCreateResourceTask.clean_up_existing_instance`: remove the one-time
generated SSH keys (a bare `clean_up_ssh_keys` task; the VM itself is left
untouched). -/
def GpuCreateResourceTask.clean_up_existing_instance
    (g : GpuCreateResourceTask) (ssh_keys : XVal) : Stage :=
  { group_id := "clean_up_ssh_keys"
    tasks := [
      { op := Op.cleanUpSshKeys g.existing_instance_name ssh_keys
          g.task_gcp_config } ] }

/-- `GpuCreateResourceTask.run_with_existing_instance`: pipeline
`provision >> run_model >> post_process >> clean_up` over a pre-existing
instance, with the Runner env set only when the metric config requests the
runtime-generated folder. -/
def GpuCreateResourceTask.run_with_existing_instance
    (g : GpuCreateResourceTask) : Pipeline :=
  let pr := g.provision_via_existing_instance
  let ip_address := pr.2.1
  let ssh_keys := pr.2.2.1
  let gcs_location := pr.2.2.2
  let env_variable :=
    if metricUsesRuntimeGcs g.task_metric_config then
      some [(SshEnvVars_GCS_OUTPUT_name, gcs_location)]
    else
      none
  { group_id := g.task_test_config.benchmark_id
    chain := [
      pr.1,
      { group_id := "run_model"
        tasks := [ g.run_model ip_address ssh_keys env_variable ] },
      g.post_process (some gcs_location),
      g.clean_up_existing_instance ssh_keys ] }

/-- `GpuCreateResourceTask.run`: dispatch on `existing_instance_name`; the
fresh-instance pipeline is
`provision >> run_model >> post_process >> clean_up`. -/
def GpuCreateResourceTask.run (g : GpuCreateResourceTask) : Pipeline :=
  match g.existing_instance_name with
  | some _ => g.run_with_existing_instance
  | none =>
    let pr := g.provision
    let ip_address := pr.2.1
    let instance_name := pr.2.2.1
    let ssh_keys := pr.2.2.2.1
    let gcs_location := pr.2.2.2.2
    let env_variable :=
      if metricUsesRuntimeGcs g.task_metric_config then
        some [(SshEnvVars_GCS_OUTPUT_name, gcs_location)]
      else
        none
    { group_id := g.task_test_config.benchmark_id
      chain := [
        pr.1,
        { group_id := "run_model"
          tasks := [ g.run_model ip_address ssh_keys env_variable ] },
        g.post_process (some gcs_location),
        GpuCreateResourceTask.clean_up instance_name
          g.task_gcp_config.project_name g.task_gcp_config.zone ] }

/-- `GpuGkeTask` of `task.py`: the BatchJob backend (GPU batch job on a GKE
cluster).  `job_create_timeout` in whole seconds. -/
structure GpuGkeTask where
  task_test_config : TestConfig
  task_gcp_config : GCPConfig
  cluster_name : String
  job_create_timeout : Nat
  task_metric_config : Option MetricConfig
deriving DecidableEq, Repr

/-- The job manifest as a function of the test config alone (the body of
`GpuGkeTask._get_job_manifest`, which reads only `self.task_test_config`). -/
def jobManifestOf (ttc : TestConfig) : JobManifest :=
  let accelerator := ttc.accelerator
  { apiVersion := "batch/v1"
    kind := "Job"
    metadata :=
      { generateName := ttc.test_name
        labels_accelerator := accelerator.name
        labels_benchmarkId := ttc.benchmark_id }
    spec :=
      { activeDeadlineSeconds := pyIntOr ttc.timeout 3600
        backoffLimit := 0
        completionMode := "Indexed"
        completions := ttc.num_hosts
        parallelism := ttc.num_hosts
        template :=
          { metadata_labels_headless_svc := "true"
            spec :=
              { subdomain := "headless-svc"
                nodeSelector_gke_accelerator := accelerator.accelerator_type
                restartPolicy := "Never"
                containers := [
                  { name := "main"
                    image := ttc.docker_image
                    imagePullPolicy := "Always"
                    command := shlexSplit ttc.setup_script
                    args := shlexSplit ttc.test_script
                    resources_limits_nvidia_gpu := accelerator.count
                    env := [
                      { name := "POD_NAME"
                        fieldPath := "metadata.name" },
                      { name := "POD_NAMESPACE"
                        fieldPath := "metadata.namespace" },
                      { name := "JOB_NAME"
                        fieldPath := "metadata.labels[\x27job-name\x27]" } ]
                    volumeMounts := [
                      { mountPath := "/dev/shm"
                        name := "dshm"
                        readOnly := false } ] } ]
                volumes := [
                  { emptyDir_medium := "Memory", name := "dshm" } ] } } } }

/-- `GpuGkeTask._get_job_manifest`: the emitted manifest (a pure function of
the task's test config). -/
def GpuGkeTask._get_job_manifest (k : GpuGkeTask) : JobManifest :=
  jobManifestOf k.task_test_config

/-- `GpuGkeTask.post_process`: the `post_process` group
(`generate_process_id` then `process_metrics`, both with retries 0). -/
def GpuGkeTask.post_process (k : GpuGkeTask)
    (result_location : Option XVal) : Stage :=
  { group_id := "post_process"
    tasks := [
      { op := Op.generateProcessId, retries := some 0 },
      { op := Op.processMetrics XVal.processId k.task_test_config
          k.task_metric_config k.task_gcp_config result_location
        retries := some 0 } ] }

/-- `GpuGkeTask.run`: pipeline
`gcs_location >> run_model (gke.run_job) >> post_process`; no cleanup stage
exists for this backend. -/
def GpuGkeTask.run (k : GpuGkeTask) : Pipeline :=
  let gcs_location := XVal.gcsFolderLocation k.task_test_config.gcs_subfolder
    k.task_test_config.benchmark_id
  let job_body := k._get_job_manifest
  { group_id := k.task_test_config.benchmark_id
    chain := [
      { group_id := "generate_gcs_folder_location"
        tasks := [
          { op := Op.generateGcsFolderLocation
              k.task_test_config.gcs_subfolder
              k.task_test_config.benchmark_id } ] },
      { group_id := "run_model"
        tasks := [
          { op := Op.runJob job_body k.task_gcp_config k.cluster_name
              k.job_create_timeout gcs_location } ] },
      k.post_process (some gcs_location) ] }

/-! Observation helpers over composed pipelines. -/

/-- Recognizer: the workload-deletion operator (`xpk.clean_up_workload`). -/
def opIsCleanUpWorkload : Op → Bool
  | Op.cleanUpWorkload .. => true
  | _ => false

/-- Recognizer: the metric-ingestion operator (`metric.process_metrics`). -/
def opIsProcessMetrics : Op → Bool
  | Op.processMetrics .. => true
  | _ => false

/-- Recognizer: the completion-wait operator
(`xpk.wait_for_workload_completion`). -/
def opIsWaitForWorkloadCompletion : Op → Bool
  | Op.waitForWorkloadCompletion .. => true
  | _ => false

/-- Recognizer: the VM-creation operator (`gpu.create_resource`). -/
def opIsCreateResource : Op → Bool
  | Op.createResource .. => true
  | _ => false

/-- Recognizer: the VM-deletion operator (`gpu.delete_resource`). -/
def opIsDeleteResource : Op → Bool
  | Op.deleteResource .. => true
  | _ => false

/-- Recognizer: the SSH key generation operator (`ssh.generate_ssh_keys`). -/
def opIsGenerateSshKeys : Op → Bool
  | Op.generateSshKeys => true
  | _ => false

/-- The env mapping handed to an SSH-style Runner task, when the operator
takes one. -/
def opEnv : Op → Option (List (String × XVal))
  | Op.sshTpu _ _ _ _ e => e
  | Op.sshHost _ _ _ e => e
  | _ => none

/-- The `all_workers` flag of an `ssh_tpu` operator call. -/
def opAllWorkers : Op → Option Bool
  | Op.sshTpu _ _ _ w _ => some w
  | _ => none

/-- The `folder_location` argument of a `process_metrics` operator call. -/
def opFolderLocation : Op → Option (Option XVal)
  | Op.processMetrics _ _ _ _ fl => some fl
  | _ => none

/-- All tasks of a pipeline, in chain order. -/
def pipelineTasks (p : Pipeline) : List TaskNode :=
  (p.chain.map Stage.tasks).flatten

/-- Whether some task of the pipeline satisfies a predicate on operators. -/
def pipelineHasOp (p : Pipeline) (f : Op → Bool) : Bool :=
  (pipelineTasks p).any (fun tk => f tk.op)

/-- First task of the pipeline with the given `task_id` override. -/
def findTaskById (p : Pipeline) (id : String) : Option TaskNode :=
  (pipelineTasks p).find? (fun tk => decide (tk.task_id = some id))

/-- Env mapping of the task with task id `run_model` (the Runner). -/
def runModelEnvOf (p : Pipeline) : Option (Option (List (String × XVal))) :=
  (findTaskById p "run_model").map (fun tk => opEnv tk.op)

/-- The `all_workers` flag of the task with the given task id. -/
def allWorkersOfTask (p : Pipeline) (id : String) : Option Bool :=
  (findTaskById p id).bind (fun tk => opAllWorkers tk.op)

/-- The `folder_location` handed to the first `process_metrics` task of the
pipeline. -/
def processMetricsFolderOf (p : Pipeline) : Option (Option XVal) :=
  ((pipelineTasks p).find? (fun tk => opIsProcessMetrics tk.op)).bind
    (fun tk => opFolderLocation tk.op)

/-- Index in the top-level chain of the first stage containing a task whose
operator satisfies `f`. -/
def stageIdxWith (p : Pipeline) (f : Op → Bool) : Option Nat :=
  p.chain.findIdx? (fun s => s.tasks.any (fun tk => f tk.op))

/-- Whether the first stage matching `f` comes strictly before the first
stage matching `g` in the top-level chain (chaining stage `A >> B` places
every task of `A` strictly before every task of `B`). -/
def stageStrictlyBefore (p : Pipeline) (f g : Op → Bool) : Bool :=
  match stageIdxWith p f, stageIdxWith p g with
  | some i, some j => decide (i < j)
  | _, _ => false

/-- Index, within a stage's own chain, of its first task matching `f`. -/
def taskIdxWith (s : Stage) (f : Op → Bool) : Option Nat :=
  s.tasks.findIdx? (fun tk => f tk.op)

/-- Strict order on optional indices (`false` when either is absent). -/
def optIdxLt : Option Nat → Option Nat → Bool
  | some i, some j => decide (i < j)
  | _, _ => false

/-- Whether a task carries retries 0 (`.override(retries=0)`). -/
def retriesZero : Option Nat → Bool
  | some 0 => true
  | _ => false

/-- Whether a trigger rule is the Airflow default `all_success`. -/
def isAllSuccess : TriggerRule → Bool
  | TriggerRule.allSuccess => true
  | _ => false

/-- Whether every task of the pipeline keeps the default all-success trigger
rule (the source never overrides `trigger_rule`). -/
def allTasksAllSuccess (p : Pipeline) : Bool :=
  (pipelineTasks p).all (fun tk => isAllSuccess tk.trigger_rule)

/-- Whether every task of every `post_process` group of the pipeline is
created with retries 0. -/
def postProcessRetriesZero (p : Pipeline) : Bool :=
  p.chain.all (fun s =>
    if s.group_id = "post_process" then
      s.tasks.all (fun tk => retriesZero tk.retries)
    else
      true)

/-- Modelled from the spec: the external scheduler's dependency semantics
for a pipeline whose tasks all keep the default all-success trigger rule —
stages of the top-level chain execute in a strict dependency chain, so stage
`i` is attempted iff every earlier stage of the chain succeeded.  A failed
stage makes every later stage of the chain unattempted. -/
def stageAttempted (succeeded : Nat → Bool) (i : Nat) : Bool :=
  (List.range i).all succeeded

/-- The task with its metric config replaced (used to state facts about a
composition at a chosen metric configuration). -/
def XpkTask.withMetricConfig (t : XpkTask) (mc : Option MetricConfig) :
    XpkTask :=
  { t with task_metric_config := mc }

/-- The task with its metric config and existing-instance name replaced. -/
def GpuCreateResourceTask.withMetricExisting (g : GpuCreateResourceTask)
    (mc : Option MetricConfig) (ein : Option String) :
    GpuCreateResourceTask :=
  { g with task_metric_config := mc, existing_instance_name := ein }

/-- The test config at the spec's concrete manifest instance: four hosts,
zero timeout, eight accelerator devices. -/
def manifestSampleConfig (ttc : TestConfig) : TestConfig :=
  { ttc with num_hosts := 4, timeout := 0, accelerator := { ttc.accelerator with count := 8 } }

/-- The test config after run-name generation: the run-name export command
prepended to `run_model_cmds`, other fields unchanged. -/
def runNameMutatedConfig (ttc : TestConfig) (run_name_env : String) :
    TestConfig :=
  { ttc with run_model_cmds := Cmd.exportRunName run_name_env (XVal.runName ttc.benchmark_id) :: ttc.run_model_cmds }

/-! Concrete sample instances used by the counterexample statements. -/

/-- A concrete accelerator shape. -/
def sampleAccelerator : Accelerator :=
  { name := "h100-mega-80gb-8", accelerator_type := "nvidia-h100-mega-80gb",
    count := 8 }

/-- A concrete test config (a TF-framework test name, one run command). -/
def sampleTestConfig : TestConfig :=
  { benchmark_id := "tf-resnet-v100", test_name := "tf_resnet",
    gcs_subfolder := "gpu/tf", setup_script := "bash setup.sh",
    test_script := "python3 train.py",
    run_model_cmds := [Cmd.lit "python3 train.py"], timeout := 3600,
    task_owner := "owner-a", cluster_name := "cluster-a",
    docker_image := "gcr.io/img:latest", accelerator := sampleAccelerator,
    num_slices := 2, num_hosts := 4 }

/-- A concrete GCP config. -/
def sampleGcp : GCPConfig :=
  { project_name := "proj-1", zone := "us-central1-a" }

/-- A concrete metric config with a tensorboard summary and no profile. -/
def sampleMetricConfig : MetricConfig :=
  { tensorboard_summary := some { file_location := XVal.lit "gs://tb/base" }
    profile := none
    use_runtime_generated_gcs_folder := true }

/-- A concrete XpkTask. -/
def sampleXpk : XpkTask :=
  { task_test_config := sampleTestConfig, task_gcp_config := sampleGcp,
    task_metric_config := some sampleMetricConfig,
    workload_provision_timeout := 18000 }

/-- The pipeline composed by `XpkTask.run` on the sample task (no explicit
GCS location, post-processing not skipped). -/
def sampleXpkRunPipeline : Pipeline :=
  (sampleXpk.run none false false false "" false "main").2

/-- The QueuedResource pipeline on the sample config with
`all_workers := false`. -/
def sampleQrPipeline : Pipeline :=
  run_queued_resource_test sampleTestConfig sampleGcp
    (some sampleMetricConfig) 3600 false false

/-- A concrete GPU task with no metric config and no existing instance. -/
def sampleGpuNoMetric : GpuCreateResourceTask :=
  { image_project := "img-proj", image_family := "img-fam",
    task_test_config := sampleTestConfig, task_gcp_config := sampleGcp,
    task_metric_config := none, gpu_create_timeout := 3600,
    install_nvidia_drivers := false, existing_instance_name := none,
    reservation := false }

/-- An outcome assignment on chain positions where the Runner stage
(position 1 of the QueuedResource chain) failed. -/
def sampleRunnerFailed : Nat → Bool := fun j => decide (j ≠ 1)

/-- C1: for every backend variant, the composed pipeline chains its stages
in the order Provision, Run, Post-Process, Cleanup — for the QueuedResource
pipeline (`run_queued_resource_test`) and the VmSsh pipeline
(`GpuCreateResourceTask.run`, both the fresh-instance and existing-instance
branches) the extracted stage labels are exactly that sequence, and for the
BatchJob pipeline (`GpuGkeTask.run`) they are the collapsed
provision-plus-run stage followed by post-process, with no cleanup stage. -/
theorem C1_stage_order (ttc : TestConfig) (gcp : GCPConfig)
    (mc : Option MetricConfig) (tct : Nat) (tnev aw : Bool)
    (g : GpuCreateResourceTask) (k : GpuGkeTask) :
    pipelineStageLabels (run_queued_resource_test ttc gcp mc tct tnev aw) =
      [StageLabel.provision, StageLabel.run, StageLabel.postProcess,
        StageLabel.cleanup] ∧
    pipelineStageLabels g.run =
      [StageLabel.provision, StageLabel.run, StageLabel.postProcess,
        StageLabel.cleanup] ∧
    pipelineStageLabels k.run = [StageLabel.run, StageLabel.postProcess] := by
  refine ⟨rfl, ?_, rfl⟩
  obtain ⟨ip, imf, ttc2, gcp2, mc2, gct, ind, ein, res⟩ := g
  cases ein <;> rfl

/-- C2 counterexample: on a concrete ClusterWorkload pipeline composed by
`XpkTask.run`, the workload-deletion task (`clean_up_workload`) sits in the
`run_model` stage, strictly before the stage holding the metric
post-processing task — so post-processing is not strictly before cleanup,
and the deletion does not run after post-processing. -/
theorem C2_counterexample :
    stageStrictlyBefore sampleXpkRunPipeline opIsProcessMetrics
      opIsCleanUpWorkload = false ∧
    stageStrictlyBefore sampleXpkRunPipeline opIsCleanUpWorkload
      opIsProcessMetrics = true := by decide

/-- C2 amended: in every pipeline composed by `XpkTask.run` (with
post-processing not skipped) and by `XpkTask.run_with_run_name_generation`,
the workload-deletion task lies in a stage strictly before the stage of the
metric post-processing task (it runs inside the `run_model` group, after
`wait_for_workload_completion` and before the `post_process` stage). -/
theorem C2_amended (t : XpkTask) (gcs : Option XVal) (uvt up : Bool)
    (rd : String) (mtc : Bool) (xb : String) (tb : SummaryConfig)
    (pr : Option ProfileConfig) (urg : Bool) (rne : String) (nested : Bool) :
    stageStrictlyBefore (t.run gcs uvt up false rd mtc xb).2
      opIsCleanUpWorkload opIsProcessMetrics = true ∧
    optIdxLt
      (taskIdxWith (t.run_model gcs uvt up rd mtc xb).1
        opIsWaitForWorkloadCompletion)
      (taskIdxWith (t.run_model gcs uvt up rd mtc xb).1
        opIsCleanUpWorkload) = true ∧
    ((XpkTask.run_with_run_name_generation
        (t.withMetricConfig (some (MetricConfig.mk (some tb) pr urg)))
        up xb rne nested).map
      (fun r => stageStrictlyBefore r.2 opIsCleanUpWorkload
        opIsProcessMetrics)) = some true := by
  obtain ⟨ttc, gcp, mc, wpt⟩ := t
  refine ⟨?_, ?_, ?_⟩
  · rcases mc with _ | ⟨tbs, prf, u⟩ <;> rcases gcs with _ | l <;>
      first
        | rfl
        | (rcases prf with _ | p <;> rfl)
  · rcases gcs with _ | l <;> rfl
  · rcases pr with _ | p <;> rfl

/-- C3: quarantine routing only changes the grouping — both branches of
`BaseTask.run_with_quarantine` build the same pipeline, and both branches of
`XpkTask.run_with_name_gen_and_quarantine` invoke
`run_with_run_name_generation` with the same arguments, so the composed node
is invariant under quarantine membership while the quarantined flag records
exactly the membership test. -/
theorem C3_quarantine_invariance {α : Type} (q1 q2 : String → Bool)
    (bid : String) (r : Unit → α) (t : XpkTask) (up : Bool)
    (xb rne : String) (nested : Bool) :
    (BaseTask.run_with_quarantine q1 bid r).node = r () ∧
    (BaseTask.run_with_quarantine q1 bid r).node =
      (BaseTask.run_with_quarantine q2 bid r).node ∧
    (BaseTask.run_with_quarantine q1 bid r).quarantined = q1 bid ∧
    (XpkTask.run_with_name_gen_and_quarantine q1 t up xb rne nested).node =
      t.run_with_run_name_generation up xb rne nested ∧
    (XpkTask.run_with_name_gen_and_quarantine q1 t up xb rne nested).node =
      (XpkTask.run_with_name_gen_and_quarantine q2 t up xb rne nested).node ∧
    (XpkTask.run_with_name_gen_and_quarantine q1 t up xb rne
        nested).quarantined = q1 t.task_test_config.benchmark_id := by
  refine ⟨?_, ?_, ?_, ?_, ?_, ?_⟩
  · by_cases h : q1 bid = true <;> simp [BaseTask.run_with_quarantine, h]
  · by_cases h : q1 bid = true <;> by_cases h2 : q2 bid = true <;>
      simp [BaseTask.run_with_quarantine, h, h2]
  · by_cases h : q1 bid = true <;> simp [BaseTask.run_with_quarantine, h]
  · by_cases h : q1 t.task_test_config.benchmark_id = true <;>
      simp [XpkTask.run_with_name_gen_and_quarantine, h]
  · by_cases h : q1 t.task_test_config.benchmark_id = true <;>
      by_cases h2 : q2 t.task_test_config.benchmark_id = true <;>
      simp [XpkTask.run_with_name_gen_and_quarantine, h, h2]
  · by_cases h : q1 t.task_test_config.benchmark_id = true <;>
      simp [XpkTask.run_with_name_gen_and_quarantine, h]

/-- C4: the batch-job manifest is a pure function of the test config
(`GpuGkeTask._get_job_manifest` factors through `jobManifestOf` applied to
`task_test_config` alone), and for every config the emitted manifest has
completions and parallelism equal to `num_hosts`, completion mode
`Indexed`, backoff limit 0, active deadline equal to the timeout in whole
seconds or 3600 when that is zero, and a single container whose GPU resource
limit equals `accelerator.count`; in particular for `num_hosts = 4`,
`timeout = 0`, `accelerator.count = 8` it yields completions 4, parallelism
4, active deadline 3600 and GPU limit 8. -/
theorem C4_job_manifest (k : GpuGkeTask) (ttc : TestConfig) :
    k._get_job_manifest = jobManifestOf k.task_test_config ∧
    (jobManifestOf ttc).spec.completions = ttc.num_hosts ∧
    (jobManifestOf ttc).spec.parallelism = ttc.num_hosts ∧
    (jobManifestOf ttc).spec.completionMode = "Indexed" ∧
    (jobManifestOf ttc).spec.backoffLimit = 0 ∧
    (jobManifestOf ttc).spec.activeDeadlineSeconds =
      (if ttc.timeout = 0 then 3600 else ttc.timeout) ∧
    ((jobManifestOf ttc).spec.template.spec.containers.map
      (fun c => c.resources_limits_nvidia_gpu)) = [ttc.accelerator.count] ∧
    (jobManifestOf (manifestSampleConfig ttc)).spec.completions = 4 ∧
    (jobManifestOf (manifestSampleConfig ttc)).spec.parallelism = 4 ∧
    (jobManifestOf (manifestSampleConfig ttc)).spec.activeDeadlineSeconds
      = 3600 ∧
    ((jobManifestOf (manifestSampleConfig ttc)).spec.template.spec.containers.map
      (fun c => c.resources_limits_nvidia_gpu)) = [8] :=
  ⟨rfl, rfl, rfl, rfl, rfl, rfl, rfl, rfl, rfl, rfl, rfl⟩

/-- C5 counterexample: `XpkTask.run_with_run_name_generation` mutates
`task_test_config` — on a concrete task whose `run_model_cmds` is a single
literal command, the task returned by the composition carries
`run_model_cmds` with the run-name export command prepended, different from
the field it was constructed with. -/
theorem C5_counterexample :
    (XpkTask.run_with_run_name_generation sampleXpk false "main"
        "M_RUN_NAME" true).map
      (fun r => r.1.task_test_config.run_model_cmds) =
      some [Cmd.exportRunName "M_RUN_NAME" (XVal.runName "tf-resnet-v100"),
        Cmd.lit "python3 train.py"] ∧
    sampleXpk.task_test_config.run_model_cmds =
      [Cmd.lit "python3 train.py"] := by decide

/-- C5 amended: `task_test_config` is mutated by exactly one composition
operation — `XpkTask.run_with_run_name_generation`, whose only change is
prepending the run-name export command to `run_model_cmds`; the other
composition operations (`XpkTask.post_process`, `XpkTask.run`) leave
`task_test_config` unchanged. -/
theorem C5_mutation_scope (t : XpkTask) (up : Bool) (xb rne : String)
    (nested : Bool) (loc : Option XVal) (gcs : Option XVal)
    (uvt up2 spp : Bool) (rd : String) (mtc : Bool) (xb2 : String) :
    ((t.run_with_run_name_generation up xb rne nested).map
      (fun r => r.1.task_test_config)) =
      ((t.run_with_run_name_generation up xb rne nested).map
        (fun _ => runNameMutatedConfig t.task_test_config rne)) ∧
    (t.post_process loc).1.task_test_config = t.task_test_config ∧
    (t.run gcs uvt up2 spp rd mtc xb2).1.task_test_config =
      t.task_test_config := by
  obtain ⟨ttc, gcp, mc, wpt⟩ := t
  refine ⟨?_, ?_, ?_⟩
  · rcases mc with _ | ⟨tbs, prf, u⟩
    · rfl
    · rcases tbs with _ | tb
      · rfl
      · rcases prf with _ | p <;> rfl
  · rcases mc with _ | ⟨tbs, prf, u⟩
    · rfl
    · rcases prf with _ | p <;> rfl
  · rcases spp with _ | _ <;> rcases mc with _ | ⟨tbs, prf, u⟩ <;>
      first
        | rfl
        | (rcases prf with _ | p <;> rfl)

/-- C6 counterexample: on a concrete QueuedResource pipeline every task
keeps the default all-success trigger rule, the metric post-processing task
sits at chain position 2, directly after the Runner stage at position 1 — so
under the all-success chain semantics an outcome in which the Runner stage
failed leaves the post-process stage unattempted, contradicting that
post-processing is attempted regardless of Runner success. -/
theorem C6_counterexample :
    allTasksAllSuccess sampleQrPipeline = true ∧
    (sampleQrPipeline.chain.map Stage.group_id) =
      ["provision", "run_model", "post_process", "clean_up"] ∧
    stageIdxWith sampleQrPipeline opIsProcessMetrics = some 2 ∧
    sampleRunnerFailed 1 = false ∧
    stageAttempted sampleRunnerFailed 2 = false := by decide

/-- C6 amended: every post-process task of every backend is created with
retries 0, but no task overrides the default all-success trigger rule, so
the post-process stage (chain position 2, after the Runner at position 1 in
the QueuedResource chain) is attempted iff both earlier stages succeeded —
it is not attempted when the Runner stage failed. -/
theorem C6_retries_and_attempt (ttc : TestConfig) (gcp : GCPConfig)
    (mc : Option MetricConfig) (tct : Nat) (tnev aw : Bool)
    (g : GpuCreateResourceTask) (k : GpuGkeTask) (t : XpkTask)
    (loc : Option XVal) (succ : Nat → Bool) :
    postProcessRetriesZero (run_queued_resource_test ttc gcp mc tct tnev aw)
      = true ∧
    allTasksAllSuccess (run_queued_resource_test ttc gcp mc tct tnev aw)
      = true ∧
    ((run_queued_resource_test ttc gcp mc tct tnev aw).chain.map
      Stage.group_id) = ["provision", "run_model", "post_process",
        "clean_up"] ∧
    stageIdxWith (run_queued_resource_test ttc gcp mc tct tnev aw)
      opIsProcessMetrics = some 2 ∧
    stageAttempted succ 2 = (succ 0 && succ 1) ∧
    postProcessRetriesZero g.run = true ∧
    allTasksAllSuccess g.run = true ∧
    postProcessRetriesZero k.run = true ∧
    allTasksAllSuccess k.run = true ∧
    ((t.post_process loc).2.tasks.all (fun tk => retriesZero tk.retries))
      = true := by
  obtain ⟨ip, imf, ttc2, gcp2, mc2, gct, ind, ein, res⟩ := g
  obtain ⟨ttc3, gcp3, mc3, wpt⟩ := t
  refine ⟨rfl, rfl, rfl, rfl, ?_, ?_, ?_, rfl, rfl, ?_⟩
  · have h : List.range 2 = [0, 1] := rfl
    simp [stageAttempted, h]
  · cases ein <;> rfl
  · cases ein <;> rfl
  · rcases mc3 with _ | ⟨tbs, prf, u⟩ <;>
      first
        | rfl
        | (rcases prf with _ | p <;> rfl)

/-- C7 counterexample: on a concrete VmSsh pipeline whose task has no metric
config, the Runner task is created with no environment mapping at all — the
artifact location is not handed over through `GCS_OUTPUT`, so the env-var
contract does not hold for every pipeline instance. -/
theorem C7_counterexample :
    runModelEnvOf (GpuCreateResourceTask.run sampleGpuNoMetric) =
      some none ∧
    processMetricsFolderOf (GpuCreateResourceTask.run sampleGpuNoMetric) =
      some (some (XVal.gcsFolderLocation "gpu/tf" "tf-resnet-v100")) := by
  decide

/-- C7 amended: the QueuedResource Runner always receives the artifact
location generated in the provision initialize sub-phase under the
`GCS_OUTPUT` environment variable, and post-process receives that same
location as its `folder_location`; the VmSsh Runner — in both the
fresh-instance and existing-instance pipelines — receives the variable
exactly when the metric config is present with
`use_runtime_generated_gcs_folder` set (so it is created with no
environment mapping when the config is absent, and also when the config is
present with the flag unset), while its post-process always receives the
generated location. -/
theorem C7_env_threading (ttc : TestConfig) (gcp : GCPConfig)
    (mcq : Option MetricConfig) (tct : Nat) (tnev aw : Bool)
    (g : GpuCreateResourceTask) (m : MetricConfig)
    (mc : Option MetricConfig) (ein : Option String) :
    runModelEnvOf (run_queued_resource_test ttc gcp mcq tct tnev aw) =
      some (some [(SshEnvVars_GCS_OUTPUT_name,
        XVal.gcsFolderLocation ttc.gcs_subfolder ttc.benchmark_id)]) ∧
    processMetricsFolderOf (run_queued_resource_test ttc gcp mcq tct tnev
        aw)
      = some (some (XVal.gcsFolderLocation ttc.gcs_subfolder
          ttc.benchmark_id)) ∧
    metricUsesRuntimeGcs none = false ∧
    metricUsesRuntimeGcs (some m) = m.use_runtime_generated_gcs_folder ∧
    runModelEnvOf (GpuCreateResourceTask.run (g.withMetricExisting mc ein))
      =
      some (if metricUsesRuntimeGcs mc then
        some [(SshEnvVars_GCS_OUTPUT_name,
          XVal.gcsFolderLocation g.task_test_config.gcs_subfolder
            g.task_test_config.benchmark_id)]
      else none) ∧
    processMetricsFolderOf
        (GpuCreateResourceTask.run (g.withMetricExisting mc ein)) =
      some (some (XVal.gcsFolderLocation g.task_test_config.gcs_subfolder
        g.task_test_config.benchmark_id)) := by
  refine ⟨rfl, rfl, rfl, rfl, ?_, ?_⟩ <;> cases ein <;> rfl

/-- C8 counterexample: on a concrete QueuedResource pipeline for a test
named with the `tf_` prefix and `all_workers := false`, the setup script is
forced onto all workers but the `run_model` script is not — it keeps the
caller-supplied flag, so the prefix does not force all workers for both
scripts. -/
theorem C8_counterexample :
    pyStartswith sampleTestConfig.test_name "tf_" = true ∧
    allWorkersOfTask sampleQrPipeline "setup" = some true ∧
    allWorkersOfTask sampleQrPipeline "run_model" = some false := by decide

/-- C8 amended: in the QueuedResource pipeline, the setup `ssh_tpu` task
runs on all workers whenever the test name begins with `tf_` (otherwise it
follows the caller-supplied flag), while the `run_model` task always uses
the caller-supplied `all_workers` flag unconditionally. -/
theorem C8_tf_prefix_setup_only (ttc : TestConfig) (gcp : GCPConfig)
    (mc : Option MetricConfig) (tct : Nat) (tnev aw : Bool) :
    allWorkersOfTask (run_queued_resource_test ttc gcp mc tct tnev aw)
      "setup" =
      some (if pyStartswith ttc.test_name "tf_" then true else aw) ∧
    allWorkersOfTask (run_queued_resource_test ttc gcp mc tct tnev aw)
      "run_model" = some aw := ⟨rfl, rfl⟩

/-- C9: with `existing_instance_name` set, the VmSsh pipeline contains no
VM-creation and no VM-deletion operator (the instance is left untouched),
its provision stage still generates a fresh SSH key pair, and its cleanup
stage consists of exactly the removal of those generated keys on that
instance. -/
theorem C9_existing_instance_frame (g : GpuCreateResourceTask) (n : String) :
    pipelineHasOp
      (GpuCreateResourceTask.run { g with existing_instance_name := some n })
      opIsCreateResource = false ∧
    pipelineHasOp
      (GpuCreateResourceTask.run { g with existing_instance_name := some n })
      opIsDeleteResource = false ∧
    stageIdxWith
      (GpuCreateResourceTask.run { g with existing_instance_name := some n })
      opIsGenerateSshKeys = some 0 ∧
    ((GpuCreateResourceTask.run
      { g with existing_instance_name := some n }).chain.map
        Stage.group_id) =
      ["provision", "run_model", "post_process", "clean_up_ssh_keys"] ∧
    (GpuCreateResourceTask.run
      { g with existing_instance_name := some n }).chain.drop 3 =
      [ { group_id := "clean_up_ssh_keys"
          tasks := [ { op := Op.cleanUpSshKeys (some n) XVal.sshKeys
                          g.task_gcp_config } ] } ] :=
  ⟨rfl, rfl, rfl, rfl, rfl⟩

/-- C10: `XpkTask.run_with_run_name_generation` has the unstated
precondition that `task_metric_config` is present and carries a tensorboard
summary — without either it dereferences the absent value and fails (models
as `none`), and with both it succeeds; whereas `XpkTask.run` and
`XpkTask.post_process` handle an absent metric config: `run` still composes
the `run_model >> post_process` pipeline and `post_process` still builds its
two-task group with the absent config passed through. -/
theorem C10_metric_config_precondition (t : XpkTask) (up : Bool)
    (xb rne : String) (nested : Bool) (pr : Option ProfileConfig)
    (urg : Bool) (tb : SummaryConfig) (gcs : Option XVal) (uvt up2 : Bool)
    (rd : String) (mtc : Bool) (xb2 : String) (loc : Option XVal) :
    XpkTask.run_with_run_name_generation (t.withMetricConfig none)
      up xb rne nested = none ∧
    XpkTask.run_with_run_name_generation
      (t.withMetricConfig (some (MetricConfig.mk none pr urg)))
      up xb rne nested = none ∧
    (XpkTask.run_with_run_name_generation
      (t.withMetricConfig (some (MetricConfig.mk (some tb) pr urg)))
      up xb rne nested).isSome = true ∧
    ((XpkTask.run (t.withMetricConfig none) gcs uvt up2 false
        rd mtc xb2).2.chain.map Stage.group_id) =
      ["run_model", "post_process"] ∧
    ((XpkTask.post_process (t.withMetricConfig none)
        loc).2.tasks.map (fun tk => tk.op)) =
      [Op.generateProcessId,
        Op.processMetrics XVal.processId t.task_test_config none
          t.task_gcp_config loc] := by
  refine ⟨rfl, rfl, ?_, rfl, rfl⟩
  rcases pr with _ | p <;> rfl
